import Mathlib

/-!
Verification of the geofencing engine of Project-GeoFence.

This file embeds, in Lean, the parts of the TypeScript source that the
frozen claims C1-C10 are about, and settles each claim against that
embedding:

* `GeospatialValidator` (packages/backend/src/services/geofencing/utils/
  GeospatialValidator.ts): coordinate and polygon validation, segment
  intersection, point-in-polygon, polygon overlap.
* `ZoneManagementService` (ZoneManagementService.ts): zone creation
  validation pipeline and zone deletion with its in-memory cache.
* `GeofenceWebhookService` (GeofenceWebhookService.ts): webhook matching,
  delivery with retries and statistics, payload signing, and the periodic
  detector's event construction.
* `ConnectionManager` (ConnectionManager.ts): `executeRead` /
  `executeWrite` retry loops over the connection pool.
* `LoadBalancer` (the request governor): connection health scoring and
  the rate-limited dispatch loop, modelled as a small-step system.
* `Tile38Service` (Tile38Service.ts): zone validation on the spatial
  index wrapper.

Numbers are embedded as rationals (the source computes with IEEE-754
doubles; all arithmetic relevant to the claims is exact at the inputs
used).  The transcendental geospatial primitives (haversine distance and
the spherical polygon area, which use sin/cos/atan2) cannot be expressed
as computable rational functions; they enter the zone-validation pipeline
only through comparisons, so they are abstracted as an explicit
`GeoOracle` parameter, while every polynomial predicate (orientation,
segment intersection, self-intersection, point-in-polygon, overlap) is
translated exactly.
-/

deriving instance DecidableEq for Except

namespace GeoFence

/-- A coordinate, `latitude`/`longitude` as in the shared `Coordinate` type. -/
structure Coordinate where
  latitude : ℚ
  longitude : ℚ
deriving DecidableEq

/-- Default coordinate used only to totalise list indexing where the source
indexes within bounds. -/
def cZero : Coordinate := ⟨0, 0⟩

namespace GeospatialValidator

/-- `GeospatialValidator.validateCoordinate` (GeospatialValidator.ts:20-34):
range checks on latitude and longitude; throws `LocationValidationError`
otherwise (the `typeof` guards have no counterpart for rational fields). -/
def validateCoordinate (coord : Coordinate) : Except String Bool :=
  if coord.latitude < -90 ∨ coord.latitude > 90 then
    .error "Latitude must be between -90 and 90 degrees"
  else if coord.longitude < -180 ∨ coord.longitude > 180 then
    .error "Longitude must be between -180 and 180 degrees"
  else .ok true

/-- A coordinate passes `validateCoordinate`. -/
def validCoordinate (coord : Coordinate) : Bool :=
  (validateCoordinate coord).isOk

/-- `GeospatialValidator.orientation` (GeospatialValidator.ts:177-183):
orientation of the ordered triple, 0 = collinear (cross product below the
1e-10 threshold), 1 = clockwise, 2 = counterclockwise. -/
def orientation (p q r : Coordinate) : ℕ :=
  let val := (q.latitude - p.latitude) * (r.longitude - q.longitude) -
             (q.longitude - p.longitude) * (r.latitude - q.latitude)
  if |val| < 1 / 10000000000 then 0
  else if val > 0 then 1 else 2

/-- `GeospatialValidator.onSegment` (GeospatialValidator.ts:188-193):
bounding-box containment of `q` in the box spanned by `p` and `r`. -/
def onSegment (p q r : Coordinate) : Bool :=
  q.longitude ≤ max p.longitude r.longitude ∧
  q.longitude ≥ min p.longitude r.longitude ∧
  q.latitude ≤ max p.latitude r.latitude ∧
  q.latitude ≥ min p.latitude r.latitude

/-- `GeospatialValidator.linesIntersect` (GeospatialValidator.ts:148-172):
segment intersection test on segments `p1q1` and `p2q2`. -/
def linesIntersect (p1 q1 p2 q2 : Coordinate) : Bool :=
  let o1 := orientation p1 q1 p2
  let o2 := orientation p1 q1 q2
  let o3 := orientation p2 q2 p1
  let o4 := orientation p2 q2 q1
  if o1 ≠ o2 ∧ o3 ≠ o4 then true
  else if o1 = 0 ∧ onSegment p1 p2 q1 then true
  else if o2 = 0 ∧ onSegment p1 q2 q1 then true
  else if o3 = 0 ∧ onSegment p2 p1 q2 then true
  else if o4 = 0 ∧ onSegment p2 q1 q2 then true
  else false

/-- `GeospatialValidator.isSelfIntersecting` (GeospatialValidator.ts:117-143):
double loop over edge pairs, `i` from 0 and `j` from `i+2`, both below
`length - 1`, skipping adjacent pairs and the (first, last) edge pair. -/
def isSelfIntersecting (coordinates : List Coordinate) : Bool :=
  if coordinates.length < 4 then false
  else
    (List.range (coordinates.length - 1)).any fun i =>
      (List.range (coordinates.length - 1)).any fun j =>
        if j < i + 2 then false
        else if (max i j - min i j ≤ 1) ∨ (i = 0 ∧ j = coordinates.length - 2) then false
        else
          linesIntersect (coordinates.getD i cZero) (coordinates.getD (i + 1) cZero)
            (coordinates.getD j cZero) (coordinates.getD (j + 1) cZero)

/-- `GeospatialValidator.isPointInPolygon` (GeospatialValidator.ts:239-257):
ray casting on (longitude, latitude); the accumulator carries the `inside`
flag and the trailing index `j`. -/
def isPointInPolygon (point : Coordinate) (polygon : List Coordinate) : Bool :=
  ((List.range polygon.length).foldl
    (fun (acc : Bool × ℕ) i =>
      let xi := (polygon.getD i cZero).longitude
      let yi := (polygon.getD i cZero).latitude
      let xj := (polygon.getD acc.2 cZero).longitude
      let yj := (polygon.getD acc.2 cZero).latitude
      let inside :=
        if ((yi > point.latitude) ≠ (yj > point.latitude)) ∧
            (point.longitude < (xj - xi) * (point.latitude - yi) / (yj - yi) + xi) then
          !acc.1
        else acc.1
      (inside, i))
    (false, polygon.length - 1)).1

/-- `GeospatialValidator.polygonsOverlap` (GeospatialValidator.ts:262-290):
any vertex of one polygon inside the other, or any edge pair intersecting. -/
def polygonsOverlap (polygon1 polygon2 : List Coordinate) : Bool :=
  polygon1.any (fun p => isPointInPolygon p polygon2) ||
  polygon2.any (fun p => isPointInPolygon p polygon1) ||
  (List.range (polygon1.length - 1)).any fun i =>
    (List.range (polygon2.length - 1)).any fun j =>
      linesIntersect (polygon1.getD i cZero) (polygon1.getD (i + 1) cZero)
        (polygon2.getD j cZero) (polygon2.getD (j + 1) cZero)

/-- A bounding box as in the shared `BoundingBox` type. -/
structure BoundingBox where
  minLat : ℚ
  maxLat : ℚ
  minLon : ℚ
  maxLon : ℚ
deriving DecidableEq

/-- `GeospatialValidator.calculateBoundingBox` (GeospatialValidator.ts:216-234):
throws on an empty list, otherwise folds min/max over the coordinates. -/
def calculateBoundingBox (coordinates : List Coordinate) : Except String BoundingBox :=
  match coordinates with
  | [] => .error "Cannot calculate bounding box for empty coordinates"
  | c :: _ =>
    .ok (coordinates.foldl
      (fun bb cc =>
        ⟨min bb.minLat cc.latitude, max bb.maxLat cc.latitude,
         min bb.minLon cc.longitude, max bb.maxLon cc.longitude⟩)
      ⟨c.latitude, c.latitude, c.longitude, c.longitude⟩)

/-- The geospatial primitives of the validator whose values the
zone-validation pipeline consumes but which depend on IEEE-754 double
arithmetic in the source, kept abstract: `closeEnough a b` stands for
`calculateDistance(a, b) < 0.001` (haversine with sin/cos/atan2,
GeospatialValidator.ts:198-211, used at line 64 to test polygon closure),
`selfIntersecting` for `isSelfIntersecting` (GeospatialValidator.ts:
117-143, whose verdict hinges on a 1e-10 collinearity threshold over
float products; the exact-rational idealization is
`GeospatialValidator.isSelfIntersecting` above), and `area` for
`calculatePolygonArea` (spherical shoelace with sines,
GeospatialValidator.ts:92-112). -/
structure GeoOracle where
  closeEnough : Coordinate → Coordinate → Bool
  selfIntersecting : List Coordinate → Bool
  area : List Coordinate → ℚ

/-- `GeospatialValidator.validateZonePolygon` (GeospatialValidator.ts:39-87)
restricted to the coordinate ring (the `Zone` wrapper only carries the
ring here): vertex-count bounds, per-vertex validation, auto-closure when
the first and last vertices are at least 1 mm apart, self-intersection
check, and area bounds.  Returns the (possibly auto-closed) ring, which
the source writes back into `zone.coordinates`. -/
def validateZonePolygon (oracle : GeoOracle) (coordinates : List Coordinate) :
    Except String (List Coordinate) :=
  if coordinates.length < 3 then
    .error "Polygon must have at least 3 coordinates"
  else if coordinates.length > 100 then
    .error "Polygon cannot have more than 100 coordinates"
  else if coordinates.all validCoordinate = false then
    .error "Invalid coordinate at index"
  else
    let firstPoint := coordinates.headD cZero
    let lastPoint := coordinates.getLastD cZero
    let isClosedPolygon := oracle.closeEnough firstPoint lastPoint
    let coords2 := if isClosedPolygon then coordinates else coordinates ++ [firstPoint]
    if oracle.selfIntersecting coords2 then
      .error "Polygon cannot be self-intersecting"
    else if oracle.area coords2 < 100 then
      .error "Zone area is too small (minimum 100 square meters)"
    else if oracle.area coords2 > 1000000000 then
      .error "Zone area is too large (maximum 1000 square kilometers)"
    else .ok coords2

/-- `GeospatialValidator.validateFourCoordinatePolygon`
(GeospatialValidator.ts:318-334): the ring must have exactly 4
coordinates, or 5 with the last within 1e-4 degrees of the first. -/
def validateFourCoordinatePolygon (coordinates : List Coordinate) : Except String Bool :=
  if coordinates.length ≠ 4 ∧ coordinates.length ≠ 5 then
    .error "Zone must have exactly 4 coordinates (plus optional closing coordinate)"
  else if coordinates.length = 5 ∧
      (|(coordinates.headD cZero).latitude - (coordinates.getLastD cZero).latitude| > 1 / 10000 ∨
       |(coordinates.headD cZero).longitude - (coordinates.getLastD cZero).longitude| > 1 / 10000) then
    .error "Closing coordinate must match the first coordinate"
  else .ok true

end GeospatialValidator

/-! ## Shared service types

Embeddings of the enum and record types of `packages/shared` /
`types/geofencing` as used by the services (the type module itself is not
in scope; the shapes are taken from its consumers, in particular the
`WebhookConfig` / `GeofenceEvent` declarations repeated in
`GeofencingOrchestrator.ts:739-756` and the field accesses of
`GeofenceWebhookService.ts` and `ZoneManagementService.ts`).
Optional TypeScript fields become `Option`. -/

/-- `ZoneType` (values per the spec and `getDefaultRiskLevel`). -/
inductive ZoneType where
  | safe
  | caution
  | restricted
  | highRisk
  | emergency
  | touristFriendly
deriving DecidableEq

/-- `ZoneStatus`. -/
inductive ZoneStatus where
  | active
  | inactive
  | maintenance
deriving DecidableEq

/-- `GeofenceEventType`; `zoneExit` embeds the source's `exit` value. -/
inductive GeofenceEventType where
  | enter
  | zoneExit
  | inside
  | outside
deriving DecidableEq

/-- Alert level of `GeofenceEvent.metadata.alertLevel`. -/
inductive AlertLevel where
  | low
  | medium
  | high
  | critical
deriving DecidableEq

/-- Zone metadata subset used by the claims (`riskLevel` is read through
`zone.metadata?.riskLevel`, hence optional). -/
structure ZoneMetadata where
  riskLevel : Option ℕ
deriving DecidableEq

/-- The `Zone` record, restricted to the fields the claims read. -/
structure Zone where
  id : String
  name : String
  type : ZoneType
  status : ZoneStatus
  coordinates : List Coordinate
  metadata : ZoneMetadata
deriving DecidableEq

/-- `LocationPoint`. -/
structure LocationPoint where
  userId : String
  coordinates : Coordinate
  timestamp : String
deriving DecidableEq

/-- `GeofenceEvent.metadata`. -/
structure EventMetadata where
  alertLevel : AlertLevel
deriving DecidableEq

/-- The `GeofenceEvent` record as built by `GeofenceWebhookService`. -/
structure GeofenceEvent where
  id : String
  userId : String
  zoneId : String
  zoneName : String
  zoneType : ZoneType
  eventType : GeofenceEventType
  location : LocationPoint
  timestamp : String
  processed : Bool
  metadata : EventMetadata
deriving DecidableEq

/-- `WebhookConfig.retryConfig`. -/
structure RetryConfig where
  maxRetries : ℕ
  retryDelay : ℕ
  exponentialBackoff : Bool
deriving DecidableEq

/-- The `WebhookConfig` record (`GeofencingOrchestrator.ts:739-756`);
`zoneIds` and `zoneTypes` are optional arrays, so `none` embeds an absent
filter and `some []` embeds a present-but-empty array. -/
structure WebhookConfig where
  id : String
  name : String
  url : String
  secret : Option String
  enabled : Bool
  zoneIds : Option (List String)
  zoneTypes : Option (List ZoneType)
  eventTypes : List GeofenceEventType
  retryConfig : RetryConfig
  headers : List (String × String)
  createdAt : String
  updatedAt : String
deriving DecidableEq

/-- JavaScript truthiness of an optional string (`undefined` and the empty
string are falsy). -/
def jsTruthy : Option String → Bool
  | none => false
  | some s => s ≠ ""

/-- Association-list lookup, the embedding of `Map.get` (first match). -/
def lookupA {α : Type} (l : List (String × α)) (k : String) : Option α :=
  (l.find? (fun p => p.1 = k)).map (fun p => p.2)

/-- Association-list removal, the embedding of `Map.delete`. -/
def removeA {α : Type} (l : List (String × α)) (k : String) : List (String × α) :=
  l.filter (fun p => p.1 ≠ k)

/-- Association-list update, the embedding of `Map.set`. -/
def setA {α : Type} (l : List (String × α)) (k : String) (v : α) : List (String × α) :=
  removeA l k ++ [(k, v)]

namespace ZoneManagement

open GeospatialValidator

/-- `ZoneManagementService.checkZoneOverlaps` (ZoneManagementService.ts
part: lines 611-628): error if the ring overlaps any candidate active
zone's ring (the bbox pre-search that produces the candidate list is the
index's job; the candidates are a parameter here). -/
def checkZoneOverlaps (coordinates : List Coordinate)
    (activeZones : List (List Coordinate)) : Except String Bool :=
  match activeZones.find? (fun az => polygonsOverlap coordinates az) with
  | some _ => .error "Zone overlaps with existing zone"
  | none => .ok true

/-- The coordinate-validation pipeline of `ZoneManagementService.createZone`
(lines 122-171), in source order: `calculateBoundingBox` during zone
construction (line 135), then `validateZonePolygon` (148, which
auto-closes the ring in place), then `validateFourCoordinatePolygon` on
the closed ring (149), then `checkZoneOverlaps` (152).  Name, type and
creator validation (`validateZoneCreationRequest`) concern other fields
and are outside this pipeline. -/
def createZoneCoordinatePipeline (oracle : GeoOracle)
    (activeZones : List (List Coordinate)) (coordinates : List Coordinate) :
    Except String (List Coordinate) := do
  let _ ← calculateBoundingBox coordinates
  let closed ← validateZonePolygon oracle coordinates
  let _ ← validateFourCoordinatePolygon closed
  let _ ← checkZoneOverlaps closed activeZones
  .ok closed

/-- The mutable state of a `ZoneManagementService` instance together with
the `zones` collection of the spatial index it writes through
`connectionManager`: `tile38zones` embeds the index collection (a `GET`
is an association lookup, a `DEL` a removal; connection failures and
response parsing are out of scope), `zoneCache` and `cacheTimestamps` the
two in-memory maps of the service. -/
structure ZMState where
  tile38zones : List (String × Zone)
  zoneCache : List (String × Zone)
  cacheTimestamps : List (String × ℕ)
deriving DecidableEq

/-- `CACHE_TTL` (ZoneManagementService, line 110): 5 minutes in ms. -/
def CACHE_TTL : ℕ := 300000

/-- `removeCachedZone` (lines 682-685). -/
def removeCachedZone (s : ZMState) (zoneId : String) : ZMState :=
  { s with zoneCache := removeA s.zoneCache zoneId,
           cacheTimestamps := removeA s.cacheTimestamps zoneId }

/-- `cacheZone` (lines 667-670); `now` embeds `Date.now()`. -/
def cacheZone (s : ZMState) (now : ℕ) (zone : Zone) : ZMState :=
  { s with zoneCache := setA s.zoneCache zone.id zone,
           cacheTimestamps := setA s.cacheTimestamps zone.id now }

/-- `getCachedZone` (lines 672-680): a missing or expired timestamp evicts
the entry and misses; otherwise the cached zone is returned. -/
def getCachedZone (s : ZMState) (now : ℕ) (zoneId : String) : ZMState × Option Zone :=
  match lookupA s.cacheTimestamps zoneId with
  | none => (removeCachedZone s zoneId, none)
  | some t =>
    if CACHE_TTL < now - t then (removeCachedZone s zoneId, none)
    else (s, lookupA s.zoneCache zoneId)

/-- `getZone` (lines 236-266): cache first, then a `GET zones <id>
WITHFIELDS` against the index, caching a hit. -/
def getZone (s : ZMState) (now : ℕ) (zoneId : String) : ZMState × Option Zone :=
  match getCachedZone s now zoneId with
  | (s1, some z) => (s1, some z)
  | (s1, none) =>
    match lookupA s1.tile38zones zoneId with
    | none => (s1, none)
    | some z => (cacheZone s1 now z, some z)

/-- `deleteZone` (lines 271-297): looks the zone up via `getZone`, throws
`ZoneValidationError` "Zone not found" when absent, otherwise issues
`DEL zones <id>`, evicts the cache entry and returns `true` (the
`deletedBy` argument only feeds the emitted event). -/
def deleteZone (s : ZMState) (now : ℕ) (zoneId : String) :
    Except String (ZMState × Bool) :=
  match getZone s now zoneId with
  | (_, none) => .error ("Zone not found: " ++ zoneId)
  | (s1, some _) =>
    let s2 := { s1 with tile38zones := removeA s1.tile38zones zoneId }
    .ok (removeCachedZone s2 zoneId, true)

end ZoneManagement

namespace WebhookService

/-- `GeofenceWebhookService`'s delivery statistics record (lines 53-58). -/
structure WebhookStats where
  eventsDetected : ℕ
  webhooksDelivered : ℕ
  deliveryFailures : ℕ
  averageDeliveryTime : ℚ
deriving DecidableEq

/-- `updateDeliveryStats` (GeofenceWebhookService, lines 660-664): rolling
average over `webhooksDelivered + 1` samples. -/
def updateDeliveryStats (stats : WebhookStats) (responseTime : ℚ) : WebhookStats :=
  let count : ℚ := (stats.webhooksDelivered : ℚ) + 1
  { stats with averageDeliveryTime :=
      (stats.averageDeliveryTime * (stats.webhooksDelivered : ℚ) + responseTime) / count }

/-- The retry loop of `deliverWebhook` (lines 477-547).  `attemptOk k`
embeds the outcome of the HTTP POST performed with `retryCount = k`
(success = HTTP 2xx), `responseTime` the elapsed time observed on the
terminating attempt, `maxRetries` the `config.maxRetries` setting.  On a
successful attempt `updateDeliveryStats` runs unconditionally and
`webhooksDelivered` is incremented only when `isTest` is false; when the
final attempt fails `deliveryFailures` is incremented unconditionally.
Returns the updated statistics and the delivery success flag. -/
def deliverWebhookGo (maxRetries : ℕ) (isTest : Bool) (attemptOk : ℕ → Bool)
    (responseTime : ℚ) : ℕ → ℕ → WebhookStats → WebhookStats × Bool
  | 0, _, stats => (stats, false)
  | fuel + 1, retryCount, stats =>
    if attemptOk retryCount then
      let stats1 := updateDeliveryStats stats responseTime
      (if isTest then stats1
       else { stats1 with webhooksDelivered := stats1.webhooksDelivered + 1 }, true)
    else
      if retryCount + 1 ≤ maxRetries then
        deliverWebhookGo maxRetries isTest attemptOk responseTime
          fuel (retryCount + 1) stats
      else
        ({ stats with deliveryFailures := stats.deliveryFailures + 1 }, false)

/-- `deliverWebhook` entry: the `while (retryCount <= maxRetries)` loop
starts at `retryCount = 0`, so at most `maxRetries + 1` attempts run. -/
def deliverWebhook (maxRetries : ℕ) (isTest : Bool) (attemptOk : ℕ → Bool)
    (responseTime : ℚ) (stats : WebhookStats) : WebhookStats × Bool :=
  deliverWebhookGo maxRetries isTest attemptOk responseTime (maxRetries + 1) 0 stats

/-- The filter predicate of `getApplicableWebhooks` (lines 549-569), with
JavaScript array truthiness made explicit: a *present* `zoneIds` /
`zoneTypes` array (even the empty one) activates the `includes` test,
only an absent field skips it. -/
def webhookApplicable (webhook : WebhookConfig) (event : GeofenceEvent) : Bool :=
  if webhook.enabled = false then false
  else if (match webhook.zoneIds with
           | some ids => !(ids.contains event.zoneId)
           | none => false) then false
  else if (match webhook.zoneTypes with
           | some ts => !(ts.contains event.zoneType)
           | none => false) then false
  else if !(webhook.eventTypes.contains event.eventType) then false
  else true

/-- `getApplicableWebhooks` (lines 549-569) over the registry's webhook
list (the iteration order of `this.webhooks.values()`). -/
def getApplicableWebhooks (webhooks : List WebhookConfig) (event : GeofenceEvent) :
    List WebhookConfig :=
  webhooks.filter (fun w => webhookApplicable w event)

/-- The matching rule exactly as the spec words it (spec §3, `WebhookConfig`
matching): enabled AND eventType ∈ eventTypes AND (zoneIds empty OR
event.zoneId ∈ zoneIds) AND (zoneTypes empty OR event.zoneType ∈
zoneTypes), where an absent filter counts as empty.  Kept separate from
`webhookApplicable` (the source's predicate) for comparison. -/
def specMatches (webhook : WebhookConfig) (event : GeofenceEvent) : Bool :=
  webhook.enabled &&
  webhook.eventTypes.contains event.eventType &&
  (webhook.zoneIds.getD [] == [] || (webhook.zoneIds.getD []).contains event.zoneId) &&
  (webhook.zoneTypes.getD [] == [] || (webhook.zoneTypes.getD []).contains event.zoneType)

/-- The source's matching rule restated directly (the amended claim): an
absent filter matches everything, a present filter — including the empty
array — requires membership. -/
def amendedMatches (webhook : WebhookConfig) (event : GeofenceEvent) : Bool :=
  webhook.enabled &&
  webhook.eventTypes.contains event.eventType &&
  (match webhook.zoneIds with
   | none => true
   | some ids => ids.contains event.zoneId) &&
  (match webhook.zoneTypes with
   | none => true
   | some ts => ts.contains event.zoneType)

/-- `generateSignature` (lines 650-658): empty string for a falsy secret,
otherwise the hex HMAC-SHA256 of `JSON.stringify(event)`.  The hash and
the JSON encoder are abstract parameters (`hmacSha256Hex secret message`,
`jsonOf event`); what the embedding captures is that the message signed
is the serialization of the event alone. -/
def generateSignature (hmacSha256Hex : String → String → String)
    (jsonOf : GeofenceEvent → String) (event : GeofenceEvent)
    (secret : Option String) : String :=
  match secret with
  | none => ""
  | some s => if s = "" then "" else hmacSha256Hex s (jsonOf event)

/-- A `WebhookPayload` as assembled by `deliverEventToWebhooks`
(lines 444-475); `signature` is absent until assigned. -/
structure WebhookPayload where
  event : GeofenceEvent
  zone : Zone
  userId : String
  timestamp : String
  signature : Option String
deriving DecidableEq

/-- One iteration of the delivery loop of `deliverEventToWebhooks`
(lines 461-469): when the webhook has a truthy secret the shared payload
object's `signature` field is overwritten; the (possibly updated) shared
payload is then delivered to this webhook. -/
def deliverStep (hmacSha256Hex : String → String → String)
    (jsonOf : GeofenceEvent → String) (event : GeofenceEvent)
    (acc : WebhookPayload × List (String × WebhookPayload)) (webhook : WebhookConfig) :
    WebhookPayload × List (String × WebhookPayload) :=
  let sig := generateSignature hmacSha256Hex jsonOf event webhook.secret
  let payload :=
    if jsTruthy webhook.secret then { acc.1 with signature := some sig }
    else acc.1
  (payload, acc.2 ++ [(webhook.id, payload)])

/-- `deliverEventToWebhooks` (lines 444-475): ONE payload object is built
for the event, and for each webhook in order the source mutates
`payload.signature` when the webhook has a (truthy) secret and then
delivers that same object.  The fold carries the shared payload; the
result is the list of (webhook id, payload as delivered) pairs. -/
def deliverEventToWebhooks (hmacSha256Hex : String → String → String)
    (jsonOf : GeofenceEvent → String) (zone : Zone) (event : GeofenceEvent)
    (nowIso : String) (webhooks : List WebhookConfig) :
    List (String × WebhookPayload) :=
  let payload0 : WebhookPayload :=
    { event := event, zone := zone, userId := event.userId,
      timestamp := nowIso, signature := none }
  (webhooks.foldl (deliverStep hmacSha256Hex jsonOf event) (payload0, [])).2

/-- The last truthy secret among a list of webhooks (the value the shared
payload's `signature` field reflects after processing them). -/
def lastTruthySecret (webhooks : List WebhookConfig) : Option String :=
  (webhooks.filterMap (fun w => if jsTruthy w.secret then w.secret else none)).getLast?

/-- `calculateAlertLevel` (lines 405-412): `zone.metadata?.riskLevel || 5`
(a stored 0 is falsy and also defaults to 5), then the threshold table. -/
def calculateAlertLevel (zone : Zone) : AlertLevel :=
  let riskLevel :=
    match zone.metadata.riskLevel with
    | some r => if r = 0 then 5 else r
    | none => 5
  if 9 ≤ riskLevel then .critical
  else if 7 ≤ riskLevel then .high
  else if 5 ≤ riskLevel then .medium
  else .low

/-- `parseLocationFromTile38Data` (lines 382-403): decode the stored
GeoJSON point, falling back to (0, 0); the decoder is the abstract
parameter `parsePoint`. -/
def parseLocationFromTile38Data (parsePoint : String → Option Coordinate)
    (userId : String) (dat : String) (nowIso : String) : LocationPoint :=
  match parsePoint dat with
  | some c => { userId := userId, coordinates := c, timestamp := nowIso }
  | none => { userId := userId, coordinates := ⟨0, 0⟩, timestamp := nowIso }

/-- The flat `[id, object, id, object, …]` Tile38 result array consumed two
entries at a time (`for (let i = 0; i < users.length; i += 2)`); a
trailing unpaired entry has an `undefined` partner and is skipped. -/
def pairUp {α : Type} : List α → List (α × α)
  | a :: b :: rest => (a, b) :: pairUp rest
  | _ => []

/-- `processZoneIntersections` (lines 353-380): for each (userId,
locationData) pair with both entries truthy, build a `GeofenceEvent` with
id `zoneId-userId-Date.now()`, eventType `inside`, the parsed location,
and `calculateAlertLevel zone`; `nowMs` embeds `Date.now()` and `nowIso`
the ISO timestamp of the same instant. -/
def processZoneIntersections (parsePoint : String → Option Coordinate)
    (zone : Zone) (users : List String) (nowMs : ℕ) (nowIso : String) :
    List GeofenceEvent :=
  (pairUp users).filterMap fun p =>
    if p.1 ≠ "" ∧ p.2 ≠ "" then
      some { id := zone.id ++ "-" ++ p.1 ++ "-" ++ toString nowMs,
             userId := p.1,
             zoneId := zone.id,
             zoneName := zone.name,
             zoneType := zone.type,
             eventType := .inside,
             location := parseLocationFromTile38Data parsePoint p.1 p.2 nowIso,
             timestamp := nowIso,
             processed := false,
             metadata := { alertLevel := calculateAlertLevel zone } }
    else none

end WebhookService

namespace ConnectionManager

/-- The connection pool (`ConnectionPool`, ConnectionManager.ts:17-22):
connectivity flags for the primary and the replicas, and the round-robin
cursor.  Connection index 0 is the primary, index `i + 1` replica `i`. -/
structure Pool where
  primaryConnected : Bool
  replicas : List Bool
  roundRobinIndex : ℕ
deriving DecidableEq

/-- The `availableConnections` list of `getReadConnection`
(ConnectionManager.ts:177-193): `[primary, ...replicas.filter(connected)]
.filter(connected)`, as connection indices. -/
def availableConnections (p : Pool) : List ℕ :=
  let connected : ℕ → Bool := fun c =>
    match c with
    | 0 => p.primaryConnected
    | c + 1 => p.replicas.getD c false
  ((0 : ℕ) :: ((List.range p.replicas.length).filter
      (fun i => p.replicas.getD i false)).map (fun i => i + 1)).filter connected

/-- `getReadConnection` (ConnectionManager.ts:177-193): throws when no
connection is healthy, otherwise picks round-robin and advances the
cursor. -/
def getReadConnection (p : Pool) : Except String (ℕ × Pool) :=
  let avail := availableConnections p
  if avail.isEmpty then
    .error "No healthy connections available for read operations"
  else
    .ok (avail.getD (p.roundRobinIndex % avail.length) 0,
         { p with roundRobinIndex := p.roundRobinIndex + 1 })

/-- `getWriteConnection` (ConnectionManager.ts:198-204): always the
primary; throws when it is down. -/
def getWriteConnection (p : Pool) : Except String ℕ :=
  if p.primaryConnected then .ok 0
  else .error "Primary connection not available for write operations"

/-- Observable events of one `executeRead` / `executeWrite` call: handle
acquisitions (with the connection index acquired), acquisition failures,
and the `delay(…)` waits between attempts. -/
inductive RetryEv where
  | acquire (conn : ℕ)
  | acquireFailed
  | delayMs (ms : ℕ)
deriving DecidableEq

/-- `MAX_CONNECTION_ATTEMPTS` (ConnectionManager.ts:29). -/
def MAX_CONNECTION_ATTEMPTS : ℕ := 3

/-- The body of `executeRead` (ConnectionManager.ts:209-227): `fuel`
counts the attempts still allowed (`MAX_CONNECTION_ATTEMPTS - attempt`),
so the `attempt < MAX - 1` guard of the source is `fuel ≠ 1`.  Each
iteration acquires a fresh handle via `getReadConnection`; `op attempt
conn` embeds the awaited operation's outcome on that attempt.  After a
failure with attempts remaining the source sleeps `1000 * (attempt + 1)`
ms; after the final failure it throws `Tile38ConnectionError`. -/
def executeReadGo {T : Type} (op : ℕ → ℕ → Except String T) :
    ℕ → ℕ → ConnectionManager.Pool → List RetryEv →
    List RetryEv × Except String T × Pool
  | 0, _, p, trace => (trace, .error "All read operation attempts failed", p)
  | fuel + 1, attempt, p, trace =>
    match getReadConnection p with
    | .error _ =>
      let trace1 := trace ++ [.acquireFailed]
      if fuel = 0 then (trace1, .error "All read operation attempts failed", p)
      else executeReadGo op fuel (attempt + 1) p (trace1 ++ [.delayMs (1000 * (attempt + 1))])
    | .ok (conn, p1) =>
      let trace1 := trace ++ [.acquire conn]
      match op attempt conn with
      | .ok v => (trace1, .ok v, p1)
      | .error _ =>
        if fuel = 0 then (trace1, .error "All read operation attempts failed", p1)
        else executeReadGo op fuel (attempt + 1) p1 (trace1 ++ [.delayMs (1000 * (attempt + 1))])

/-- `executeRead` (ConnectionManager.ts:209-227). -/
def executeRead {T : Type} (p : Pool) (op : ℕ → ℕ → Except String T) :
    List RetryEv × Except String T × Pool :=
  executeReadGo op MAX_CONNECTION_ATTEMPTS 0 p []

/-- The body of `executeWrite` (ConnectionManager.ts:232-250): identical
loop, but every attempt acquires the primary through
`getWriteConnection` (no round-robin state). -/
def executeWriteGo {T : Type} (p : Pool) (op : ℕ → Except String T) :
    ℕ → ℕ → List RetryEv → List RetryEv × Except String T
  | 0, _, trace => (trace, .error "All write operation attempts failed")
  | fuel + 1, attempt, trace =>
    match getWriteConnection p with
    | .error _ =>
      let trace1 := trace ++ [.acquireFailed]
      if fuel = 0 then (trace1, .error "All write operation attempts failed")
      else executeWriteGo p op fuel (attempt + 1)
        (trace1 ++ [.delayMs (1000 * (attempt + 1))])
    | .ok conn =>
      let trace1 := trace ++ [.acquire conn]
      match op attempt with
      | .ok v => (trace1, .ok v)
      | .error _ =>
        if fuel = 0 then (trace1, .error "All write operation attempts failed")
        else executeWriteGo p op fuel (attempt + 1)
          (trace1 ++ [.delayMs (1000 * (attempt + 1))])

/-- `executeWrite` (ConnectionManager.ts:232-250). -/
def executeWrite {T : Type} (p : Pool) (op : ℕ → Except String T) :
    List RetryEv × Except String T :=
  executeWriteGo p op MAX_CONNECTION_ATTEMPTS 0 []

/-- The delay events of a trace. -/
def delaysOf (trace : List RetryEv) : List ℕ :=
  trace.filterMap fun ev =>
    match ev with
    | .delayMs ms => some ms
    | _ => none

/-- The number of handle acquisitions in a trace. -/
def acquireCount (trace : List RetryEv) : ℕ :=
  (trace.filter fun ev =>
    match ev with
    | .acquire _ => true
    | _ => false).length

end ConnectionManager

namespace LoadBalancer

/-- `LoadBalancerConfig` subset relevant to rate limiting
(config/geofencing.ts LoadBalancer, lines 521-527; defaults 1000 req/s
over a 1000 ms window). -/
structure LBConfig where
  maxRequestsPerSecond : ℕ
  windowSizeMs : ℕ
deriving DecidableEq

/-- JavaScript `score || 50`: `undefined` and the number 0 are falsy, so a
missing entry AND a stored score of 0 both read as 50
(`this.connectionHealthScores.get(id) || 50`, lines 750-751 and 766). -/
def jsOr50 : Option ℕ → ℕ
  | none => 50
  | some v => if v = 0 then 50 else v

/-- `updateConnectionHealth` (lines 761-781): read the current score with
the `|| 50` default, add +5 / +2 / +1 on success depending on response
time, −10 on failure, clamp into [0, 100], and store. -/
def updateConnectionHealth (scores : List (String × ℕ)) (connectionId : String)
    (success : Bool) (responseTime : ℕ) : List (String × ℕ) :=
  let currentScore : ℤ := (jsOr50 (lookupA scores connectionId) : ℤ)
  let adjustment : ℤ :=
    if success then
      if responseTime < 100 then 5
      else if responseTime < 500 then 2
      else 1
    else -10
  let newScore := max 0 (min 100 (currentScore + adjustment))
  setA scores connectionId newScore.toNat

/-- `getBestConnection` (lines 741-756): stable sort of the available
connection ids by descending effective (`|| 50`) score, picking the
first; throws when none are available. -/
def getBestConnection (scores : List (String × ℕ)) (available : List String) :
    Except String String :=
  if available.isEmpty then .error "No connections available"
  else
    .ok ((available.mergeSort
      (fun a b => jsOr50 (lookupA scores b) ≤ jsOr50 (lookupA scores a))).headD "")

/-- The governor loop state: the clock (`Date.now()` in ms), the pending
`requestQueue`, the `requestWindow` of recorded timestamps, the
operations dispatched but not yet completed, and (as history, for
stating the rate-limit property) the timestamps at which operations were
handed to the spatial-index client. -/
structure LBState where
  now : ℤ
  requestQueue : List ℕ
  requestWindow : List ℤ
  inflight : List ℕ
  dispatchLog : List ℤ
deriving DecidableEq

/-- `canProcessRequest` (lines 808-817): drop window entries older than
`windowSizeMs` (this mutates `requestWindow`) and compare the remaining
count against the cap. -/
def canProcessRequest (cfg : LBConfig) (s : LBState) : Bool × LBState :=
  let windowStart := s.now - (cfg.windowSizeMs : ℤ)
  let w := s.requestWindow.filter (fun t => windowStart < t)
  (w.length < cfg.maxRequestsPerSecond, { s with requestWindow := w })

/-- `recordRequest` (lines 822-824): push the current time onto the
window.  In the source this is reached only from `recordResponseTime`,
i.e. when a request *completes*. -/
def recordRequest (s : LBState) : LBState :=
  { s with requestWindow := s.requestWindow ++ [s.now] }

/-- One dispatch iteration of `processQueue` (lines 635-658): when the
queue is non-empty and `canProcessRequest` passes, the head request is
shifted and handed to `processRequest` (fire-and-forget), which invokes
the operation on the spatial-index client.  Nothing is recorded in the
rate window at this point. -/
def dispatchStep (cfg : LBConfig) (s : LBState) : Option LBState :=
  match s.requestQueue with
  | [] => none
  | r :: rest =>
    match canProcessRequest cfg s with
    | (true, s1) =>
      some { s1 with requestQueue := rest,
                     inflight := s1.inflight ++ [r],
                     dispatchLog := s1.dispatchLog ++ [s1.now] }
    | (false, _) => none

/-- Completion of an in-flight request: `processRequest` /
`handleRequestFailure` call `recordResponseTime` (lines 837-859), whose
tail calls `recordRequest`, so the window receives the *completion*
time. -/
def completeStep (s : LBState) (r : ℕ) : Option LBState :=
  if s.inflight.contains r then
    some (recordRequest { s with inflight := s.inflight.filter (fun x => x ≠ r) })
  else none

/-- Time advance between loop iterations. -/
def tickStep (s : LBState) (d : ℕ) : LBState :=
  { s with now := s.now + (d : ℤ) }

/-- Number of dispatches that fall in the half-open window
`(t, t + windowSizeMs]`. -/
def dispatchesWithin (cfg : LBConfig) (log : List ℤ) (t : ℤ) : ℕ :=
  (log.filter (fun x => decide (t < x) && decide (x ≤ t + (cfg.windowSizeMs : ℤ)))).length

end LoadBalancer

namespace Tile38Service

/-- `Tile38Service.validateZone` (Tile38Service.ts:644-662): id required,
at least 3 coordinates, and a per-vertex check `!coord.latitude ||
!coord.longitude` — the JavaScript negation of a *number*, which is true
exactly when the value is 0 (or NaN/undefined, which a well-typed
coordinate cannot be), so a vertex on the equator or prime meridian
fails. -/
def validateZone (zone : Zone) : Except String Bool :=
  if zone.id = "" then .error "Invalid or missing zone ID"
  else if zone.coordinates.length < 3 then
    .error "Zone must have at least 3 coordinates"
  else
    match zone.coordinates.findIdx? (fun c => c.latitude = 0 ∨ c.longitude = 0) with
    | some i => .error ("Invalid coordinate at index " ++ toString i)
    | none => .ok true

/-- `Tile38Service.createZone` (Tile38Service.ts:486-509): validate, then
issue `SET zones <id> OBJECT <GeoJSON>`; the embedding returns the id and
the (lon, lat) ring of the GeoJSON polygon the command would carry. -/
def createZone (zone : Zone) : Except String (String × List (ℚ × ℚ)) := do
  let _ ← validateZone zone
  .ok (zone.id, zone.coordinates.map (fun c => (c.longitude, c.latitude)))

end Tile38Service

/-! ## Concrete inputs used by witnesses and counterexamples -/

/-- A zone whose first vertex lies on the equator (latitude 0), all
coordinates inside the valid ranges. -/
def exZoneC10 : Zone :=
  { id := "zone-eq", name := "Equator Camp", type := .safe, status := .active,
    coordinates := [⟨0, 77⟩, ⟨1/10, 77⟩, ⟨1/10, 771/10⟩],
    metadata := { riskLevel := some 2 } }

/-- A geofence event in zone `zone-1` with event type `inside`. -/
def exEventC2 : GeofenceEvent :=
  { id := "evt-1", userId := "u1", zoneId := "zone-1", zoneName := "Riverside",
    zoneType := .safe, eventType := .inside,
    location := { userId := "u1", coordinates := ⟨28, 77⟩, timestamp := "t0" },
    timestamp := "t0", processed := false,
    metadata := { alertLevel := .low } }

/-- An enabled webhook whose `zoneIds` filter is the *empty array* (present
but empty) and whose event-type filter matches `exEventC2`. -/
def exWebhookEmptyZoneIds : WebhookConfig :=
  { id := "wh-empty", name := "all-zones hook", url := "https://example.net/hook",
    secret := none, enabled := true, zoneIds := some [], zoneTypes := none,
    eventTypes := [.inside],
    retryConfig := { maxRetries := 3, retryDelay := 5000, exponentialBackoff := false },
    headers := [], createdAt := "t0", updatedAt := "t0" }

/-- An enabled webhook with no zone filters at all. -/
def exWebhookNoFilter : WebhookConfig :=
  { exWebhookEmptyZoneIds with id := "wh-open", zoneIds := none }

/-- A concrete high-risk zone for the sweep witness. -/
def exZoneC7 : Zone :=
  { id := "zone-9", name := "Cliff", type := .highRisk, status := .active,
    coordinates := [⟨1, 1⟩, ⟨1, 2⟩, ⟨2, 2⟩, ⟨2, 1⟩],
    metadata := { riskLevel := some 9 } }

/-- The event the sweep constructs for (`exZoneC7`, user `u7`) at
`Date.now() = 1234`. -/
def exSweepEvent : GeofenceEvent :=
  { id := "zone-9-u7-1234", userId := "u7", zoneId := "zone-9", zoneName := "Cliff",
    zoneType := .highRisk, eventType := .inside,
    location := { userId := "u7", coordinates := ⟨0, 0⟩, timestamp := "t7" },
    timestamp := "t7", processed := false,
    metadata := { alertLevel := .critical } }

/-- A concrete zone record stored under id `z1`. -/
def exZoneC3 : Zone :=
  { id := "z1", name := "Old Fort", type := .caution, status := .active,
    coordinates := [⟨1, 1⟩, ⟨1, 2⟩, ⟨2, 2⟩, ⟨2, 1⟩],
    metadata := { riskLevel := some 5 } }

/-- A service state whose index holds exactly the zone `z1`, with cold
caches. -/
def exZMStateC3 : ZoneManagement.ZMState := ⟨[("z1", exZoneC3)], [], []⟩

/-- The health-score history of connection `conn-1` after `n` consecutive
failed requests, starting from an empty score map (a fresh connection
reads as 50). -/
def failScores : ℕ → List (String × ℕ)
  | 0 => []
  | n + 1 => LoadBalancer.updateConnectionHealth (failScores n) "conn-1" false 0

/-- Rate-limiter configuration with a cap of 1 request per 1000 ms window. -/
def lbCfgEx : LoadBalancer.LBConfig := ⟨1, 1000⟩

/-- Governor state at time 0 with two queued requests, an empty rate
window and nothing in flight. -/
def lbEx0 : LoadBalancer.LBState := ⟨0, [1, 2], [], [], []⟩

/-- State after the first dispatch. -/
def lbEx1 : LoadBalancer.LBState := ⟨0, [2], [], [1], [0]⟩

/-- State after the second dispatch. -/
def lbEx2 : LoadBalancer.LBState := ⟨0, [], [], [1, 2], [0, 0]⟩

/-- The connection index the round-robin hands to attempt `k` of one
`executeRead` call on pool `p`. -/
def connAt (p : ConnectionManager.Pool) (k : ℕ) : ℕ :=
  (ConnectionManager.availableConnections p).getD
    ((p.roundRobinIndex + k) % (ConnectionManager.availableConnections p).length) 0

/-- A pool holding only a connected primary. -/
def exPoolC5 : ConnectionManager.Pool := ⟨true, [], 0⟩

/-- A zone and an inside-event for the signature scenarios. -/
def exZoneC6 : Zone :=
  { id := "zone-6", name := "Harbor", type := .safe, status := .active,
    coordinates := [⟨1, 1⟩, ⟨1, 2⟩, ⟨2, 2⟩, ⟨2, 1⟩],
    metadata := { riskLevel := some 2 } }

/-- The event delivered in the signature scenarios. -/
def exEventC6 : GeofenceEvent :=
  { id := "evt-6", userId := "u6", zoneId := "zone-6", zoneName := "Harbor",
    zoneType := .safe, eventType := .inside,
    location := { userId := "u6", coordinates := ⟨10, 20⟩, timestamp := "t6" },
    timestamp := "t6", processed := false,
    metadata := { alertLevel := .low } }

/-- A concrete stand-in for hex HMAC-SHA256, keeping key and message
apart. -/
def exHmacC6 : String → String → String := fun s m => "hmac(" ++ s ++ "," ++ m ++ ")"

/-- A concrete stand-in for `JSON.stringify` on events. -/
def exJsonC6 : GeofenceEvent → String := fun e => e.id

/-- A webhook carrying an HMAC secret. -/
def exWebhookWithSecret : WebhookConfig :=
  { id := "wh-sec", name := "signed hook", url := "https://example.net/a",
    secret := some "s3cr3t", enabled := true, zoneIds := none, zoneTypes := none,
    eventTypes := [.inside],
    retryConfig := { maxRetries := 3, retryDelay := 5000, exponentialBackoff := false },
    headers := [], createdAt := "t0", updatedAt := "t0" }

/-- The same webhook without a secret. -/
def exWebhookPlain : WebhookConfig :=
  { exWebhookWithSecret with id := "wh-plain", secret := none }

/-- Default entry for list indexing in the C6 statements. -/
def exPayloadDefault : String × WebhookService.WebhookPayload :=
  ("", { event := exEventC6, zone := exZoneC6, userId := "u6",
         timestamp := "t6", signature := none })

/-- A simple (non-self-intersecting) 100-vertex zigzag polygon with valid
coordinates and a realistically small footprint: 99 comb vertices
alternating between latitudes 10 and 10.001 at longitudes 10, 10.001, …,
10.098, closed off through the vertex (9.999, 10.049) below them.  The
first and last vertices are ≈ 5.4 km apart, so the validator auto-closes
the ring; the closed ring is simple under the source's segment sweep, and
its area under the source's spherical shoelace formula is
≈ 1.19 × 10⁶ m², inside the legal [100, 10⁹] m² range. -/
def ring100 : List Coordinate :=
  ((List.range 99).map fun i =>
    ⟨10 + ((i % 2 : ℕ) : ℚ) / 1000, 10 + ((i : ℕ) : ℚ) / 1000⟩) ++ [⟨9999/1000, 10049/1000⟩]

/-- The verdicts the source's double-precision primitives return on
`ring100`: the first and last vertices are ≈ 5.4 km apart (far beyond the
1 m closure tolerance), the segment sweep with its 1e-10 collinearity
threshold finds no self-intersection in the auto-closed ring, and
`calculatePolygonArea` on the auto-closed ring evaluates to
≈ 1193294 m². -/
def oracleRing100 : GeospatialValidator.GeoOracle :=
  { closeEnough := fun _ _ => false, selfIntersecting := fun _ => false,
    area := fun _ => 1193294 }

/-- The verdicts of the same double-precision primitives on the small
witness triangle (10, 10), (10, 10.1), (10.1, 10): its first and last
vertices are ≈ 11.1 km apart, the closed triangle is not
self-intersecting, and its area evaluates to ≈ 60872951 m² — inside
[100, 10⁹]. -/
def oracleTriC1 : GeospatialValidator.GeoOracle :=
  { closeEnough := fun _ _ => false, selfIntersecting := fun _ => false,
    area := fun _ => 60872951 }

/-! ## Claim C10 -/

/-- Claim C10 (confirmed): `Tile38Service.createZone` rejects, with a
`ZoneValidationError`, every zone that contains a vertex whose latitude
or longitude equals 0, because `validateZone`'s vertex check
`!coord.latitude || !coord.longitude` treats the number 0 as missing. -/
theorem C10_zeroCoordinateRejected (zone : Zone)
    (h : ∃ c ∈ zone.coordinates, c.latitude = 0 ∨ c.longitude = 0) :
    (Tile38Service.createZone zone).isOk = false := by
  obtain ⟨c, hc, hc0⟩ := h
  unfold Tile38Service.createZone Tile38Service.validateZone
  split
  · rfl
  · split
    · rfl
    · split
      · rfl
      · rename_i hnone
        rw [List.findIdx?_eq_none_iff] at hnone
        have hx := hnone c hc
        rcases hc0 with h0 | h0 <;> simp [h0] at hx

/-- Witness for C10 at a concrete equator-touching zone. -/
theorem C10_zeroCoordinateRejected_witness :
    (Tile38Service.createZone exZoneC10).isOk = false :=
  C10_zeroCoordinateRejected exZoneC10 (by decide)

/-! ## Claim C2 -/

/-- The source predicate agrees with the amended matching rule (absent
filter matches everything; present filter, even empty, requires
membership). -/
theorem webhookApplicable_eq_amendedMatches (w : WebhookConfig) (e : GeofenceEvent) :
    WebhookService.webhookApplicable w e = WebhookService.amendedMatches w e := by
  unfold WebhookService.webhookApplicable WebhookService.amendedMatches
  cases he : w.enabled <;> rcases hzi : w.zoneIds with _ | ids <;>
    rcases hzt : w.zoneTypes with _ | ts <;>
    cases het : w.eventTypes.contains e.eventType <;>
    simp [he, hzi, hzt, het]

/-- Claim C2 (corrected): an event is queued for a webhook exactly when the
webhook is enabled, its event-type filter contains the event's type, and
each *present* zone filter contains the event's zone id / zone type; an
absent filter matches every zone, but a present-and-empty `zoneIds` (or
`zoneTypes`) array matches no event at all. -/
theorem C2_matching_amended (webhooks : List WebhookConfig) (event : GeofenceEvent)
    (w : WebhookConfig) :
    w ∈ WebhookService.getApplicableWebhooks webhooks event ↔
      w ∈ webhooks ∧ WebhookService.amendedMatches w event = true := by
  unfold WebhookService.getApplicableWebhooks
  rw [List.mem_filter]
  rw [webhookApplicable_eq_amendedMatches]

/-- Counterexample to C2 as stated: a webhook whose `zoneIds` filter is the
empty set satisfies the spec's matching rule for `exEventC2`, yet
`getApplicableWebhooks` does not select it (while the same webhook with
the filter absent is selected). -/
theorem C2_matching_counterexample :
    WebhookService.specMatches exWebhookEmptyZoneIds exEventC2 = true ∧
    WebhookService.getApplicableWebhooks [exWebhookEmptyZoneIds] exEventC2 = [] ∧
    WebhookService.getApplicableWebhooks [exWebhookNoFilter] exEventC2 =
      [exWebhookNoFilter] := by
  decide

/-- Witness for C2: the amended rule instantiated at the no-filter webhook. -/
theorem C2_matching_amended_witness :
    exWebhookNoFilter ∈
      WebhookService.getApplicableWebhooks [exWebhookNoFilter] exEventC2 :=
  (C2_matching_amended [exWebhookNoFilter] exEventC2 exWebhookNoFilter).mpr
    ⟨by decide, by decide⟩

/-! ## Claim C7 -/

/-- Claim C7 (confirmed): every event the periodic sweep constructs for a
(zone, user) pair carries eventType `inside`, an alert level given by the
risk table (≥9 critical, ≥7 high, ≥5 medium, else low), and an id freshly
assembled from the zone id, the user id and the sweep's `Date.now()`
timestamp. -/
theorem C7_sweepEvent (parsePoint : String → Option Coordinate) (zone : Zone)
    (users : List String) (nowMs : ℕ) (nowIso : String) (r : ℕ)
    (hr : zone.metadata.riskLevel = some r) (h1 : 1 ≤ r) :
    ∀ e ∈ WebhookService.processZoneIntersections parsePoint zone users nowMs nowIso,
      e.eventType = .inside ∧
      e.metadata.alertLevel =
        (if 9 ≤ r then AlertLevel.critical
         else if 7 ≤ r then AlertLevel.high
         else if 5 ≤ r then AlertLevel.medium
         else AlertLevel.low) ∧
      ∃ p ∈ WebhookService.pairUp users,
        e.userId = p.1 ∧ e.id = zone.id ++ "-" ++ p.1 ++ "-" ++ toString nowMs := by
  intro e he
  unfold WebhookService.processZoneIntersections at he
  rw [List.mem_filterMap] at he
  obtain ⟨p, hp, hpe⟩ := he
  have halert : WebhookService.calculateAlertLevel zone =
      (if 9 ≤ r then AlertLevel.critical
       else if 7 ≤ r then AlertLevel.high
       else if 5 ≤ r then AlertLevel.medium
       else AlertLevel.low) := by
    unfold WebhookService.calculateAlertLevel
    rw [hr]
    have : ¬ r = 0 := by omega
    simp [this]
  split at hpe
  · rw [Option.some_inj] at hpe
    subst hpe
    refine ⟨rfl, halert, p, hp, rfl, rfl⟩
  · exact absurd hpe (by simp)

/-- Witness for C7 at a concrete high-risk zone and one user pair. -/
theorem C7_sweepEvent_witness :
    exSweepEvent.eventType = GeofenceEventType.inside ∧
    exSweepEvent.metadata.alertLevel =
      (if 9 ≤ 9 then AlertLevel.critical
       else if 7 ≤ 9 then AlertLevel.high
       else if 5 ≤ 9 then AlertLevel.medium
       else AlertLevel.low) ∧
    ∃ p ∈ WebhookService.pairUp ["u7", "point-data"],
      exSweepEvent.userId = p.1 ∧
      exSweepEvent.id = exZoneC7.id ++ "-" ++ p.1 ++ "-" ++ toString 1234 :=
  C7_sweepEvent (fun _ => none) exZoneC7 ["u7", "point-data"] 1234 "t7" 9 rfl
    (by decide) exSweepEvent (by decide)

/-! ## Claim C4 -/

/-- Loop invariant for the test-delivery path of `deliverWebhookGo`: as
long as the remaining fuel covers the retries still allowed, a test
delivery (`isTest = true`) never touches `webhooksDelivered` or
`eventsDetected`; on success it reruns `updateDeliveryStats` (changing
the average), on failure it increments `deliveryFailures`. -/
theorem deliverWebhookGo_test (maxRetries : ℕ) (attemptOk : ℕ → Bool) (rt : ℚ) :
    ∀ (fuel retryCount : ℕ) (st : WebhookService.WebhookStats),
      fuel + retryCount = maxRetries + 1 → retryCount ≤ maxRetries →
      (WebhookService.deliverWebhookGo maxRetries true attemptOk rt fuel retryCount st).1.webhooksDelivered
          = st.webhooksDelivered ∧
      (WebhookService.deliverWebhookGo maxRetries true attemptOk rt fuel retryCount st).1.eventsDetected
          = st.eventsDetected ∧
      ((WebhookService.deliverWebhookGo maxRetries true attemptOk rt fuel retryCount st).2 = true →
        (WebhookService.deliverWebhookGo maxRetries true attemptOk rt fuel retryCount st).1
          = WebhookService.updateDeliveryStats st rt) ∧
      ((WebhookService.deliverWebhookGo maxRetries true attemptOk rt fuel retryCount st).2 = false →
        (WebhookService.deliverWebhookGo maxRetries true attemptOk rt fuel retryCount st).1
          = { st with deliveryFailures := st.deliveryFailures + 1 }) := by
  intro fuel
  induction fuel with
  | zero =>
    intro retryCount st hsum hle
    omega
  | succ fuel ih =>
    intro retryCount st hsum hle
    by_cases hok : attemptOk retryCount = true
    · simp [WebhookService.deliverWebhookGo, hok, WebhookService.updateDeliveryStats]
    · by_cases hlt : retryCount + 1 ≤ maxRetries
      · have := ih (retryCount + 1) st (by omega) hlt
        simpa [WebhookService.deliverWebhookGo, hok, hlt] using this
      · simp [WebhookService.deliverWebhookGo, hok, hlt]

/-- Claim C4 (corrected): `testWebhook` runs the same `deliverWebhook` path
with `isTest = true`; this leaves `webhooksDelivered` (and
`eventsDetected`) unchanged and suppresses the delivered/failed events,
but it does NOT leave all delivery statistics unchanged: a successful
test still calls `updateDeliveryStats`, replacing `averageDeliveryTime`
by the rolling average over `webhooksDelivered + 1` samples, and a failed
test still increments `deliveryFailures`. -/
theorem C4_testDelivery_amended (maxRetries : ℕ) (attemptOk : ℕ → Bool) (rt : ℚ)
    (st : WebhookService.WebhookStats) :
    (WebhookService.deliverWebhook maxRetries true attemptOk rt st).1.webhooksDelivered
        = st.webhooksDelivered ∧
    (WebhookService.deliverWebhook maxRetries true attemptOk rt st).1.eventsDetected
        = st.eventsDetected ∧
    ((WebhookService.deliverWebhook maxRetries true attemptOk rt st).2 = true →
      (WebhookService.deliverWebhook maxRetries true attemptOk rt st).1.deliveryFailures
          = st.deliveryFailures ∧
      (WebhookService.deliverWebhook maxRetries true attemptOk rt st).1.averageDeliveryTime
          = (st.averageDeliveryTime * (st.webhooksDelivered : ℚ) + rt)
              / ((st.webhooksDelivered : ℚ) + 1)) ∧
    ((WebhookService.deliverWebhook maxRetries true attemptOk rt st).2 = false →
      (WebhookService.deliverWebhook maxRetries true attemptOk rt st).1.deliveryFailures
          = st.deliveryFailures + 1 ∧
      (WebhookService.deliverWebhook maxRetries true attemptOk rt st).1.averageDeliveryTime
          = st.averageDeliveryTime) := by
  have h := deliverWebhookGo_test maxRetries attemptOk rt (maxRetries + 1) 0 st
    (by omega) (by omega)
  unfold WebhookService.deliverWebhook
  refine ⟨h.1, h.2.1, ?_, ?_⟩
  · intro hs
    rw [h.2.2.1 hs]
    exact ⟨rfl, rfl⟩
  · intro hs
    rw [h.2.2.2 hs]
    exact ⟨rfl, rfl⟩

/-- Counterexample to C4 as stated: from zeroed statistics, a *successful*
test delivery changes `averageDeliveryTime` from 0 to 100, and a
*failed* test delivery changes `deliveryFailures` from 0 to 1. -/
theorem C4_testDelivery_counterexample :
    (WebhookService.deliverWebhook 3 true (fun _ => true) 100 ⟨0, 0, 0, 0⟩).1.averageDeliveryTime
        = 100 ∧
    (WebhookService.deliverWebhook 3 true (fun _ => false) 100 ⟨0, 0, 0, 0⟩).1.deliveryFailures
        = 1 := by
  constructor
  · show ((0 : ℚ) * 0 + 100) / (0 + 1) = 100
    norm_num
  · rfl

/-- Witness for C4: the amended statement at a concrete failed test run. -/
theorem C4_testDelivery_amended_witness :
    (WebhookService.deliverWebhook 3 true (fun _ => false) 100 ⟨0, 0, 0, 0⟩).1.deliveryFailures
        = (0 : ℕ) + 1 ∧
    (WebhookService.deliverWebhook 3 true (fun _ => false) 100 ⟨0, 0, 0, 0⟩).1.averageDeliveryTime
        = 0 :=
  (C4_testDelivery_amended 3 (fun _ => false) 100 ⟨0, 0, 0, 0⟩).2.2.2 rfl

/-! ## Claim C3 -/

/-- After `removeA`, the removed key is gone. -/
theorem lookupA_removeA {α : Type} (l : List (String × α)) (k : String) :
    lookupA (removeA l k) k = none := by
  unfold lookupA removeA
  rw [Option.map_eq_none']
  rw [List.find?_eq_none]
  intro x hx
  rw [List.mem_filter] at hx
  simpa using hx.2

/-- Counterexample to C3 as stated: deleting `z1` succeeds once, and the
immediately repeated `deleteZone` throws `ZoneValidationError`
"Zone not found" instead of succeeding as a no-op. -/
theorem C3_deleteZone_counterexample :
    ZoneManagement.deleteZone exZMStateC3 0 "z1" = .ok (⟨[], [], []⟩, true) ∧
    ZoneManagement.deleteZone ⟨[], [], []⟩ 0 "z1" = .error "Zone not found: z1" := by
  constructor
  · rfl
  · rfl

/-- Claim C3 (corrected): for a zone id whose zone exists, the first
`deleteZone` succeeds with `true` and removes the zone from the index and
the cache; the repeated `deleteZone` is NOT a successful no-op — it fails
with `ZoneValidationError` "Zone not found". -/
theorem C3_deleteZone_amended (s : ZoneManagement.ZMState) (now t : ℕ)
    (zoneId : String) (z : Zone)
    (h : (ZoneManagement.getZone s now zoneId).2 = some z) :
    ∃ s1, ZoneManagement.deleteZone s now zoneId = .ok (s1, true) ∧
      lookupA s1.tile38zones zoneId = none ∧
      lookupA s1.zoneCache zoneId = none ∧
      ZoneManagement.deleteZone s1 t zoneId = .error ("Zone not found: " ++ zoneId) := by
  rcases hgz : ZoneManagement.getZone s now zoneId with ⟨s0, oz⟩
  have hoz : oz = some z := by rw [hgz] at h; exact h
  subst hoz
  refine ⟨ZoneManagement.removeCachedZone
    { s0 with tile38zones := removeA s0.tile38zones zoneId } zoneId, ?_, ?_, ?_, ?_⟩
  · unfold ZoneManagement.deleteZone
    rw [hgz]
  · exact lookupA_removeA _ _
  · exact lookupA_removeA _ _
  · unfold ZoneManagement.deleteZone ZoneManagement.getZone ZoneManagement.getCachedZone
      ZoneManagement.removeCachedZone
    simp [lookupA_removeA]

/-- Witness for C3 at the concrete one-zone state. -/
theorem C3_deleteZone_amended_witness :
    ∃ s1, ZoneManagement.deleteZone exZMStateC3 0 "z1" = .ok (s1, true) ∧
      lookupA s1.tile38zones "z1" = none ∧
      lookupA s1.zoneCache "z1" = none ∧
      ZoneManagement.deleteZone s1 7 "z1" = .error ("Zone not found: " ++ "z1") :=
  C3_deleteZone_amended exZMStateC3 0 7 "z1" exZoneC3 (by decide)

/-! ## Claim C8 -/

/-- Claim C8 (code bug): the score does start at the 50 default and each
failure subtracts 10 with the [0, 100] clamp — until the stored score
reaches 0.  Because `updateConnectionHealth` reads the current score with
`get(id) || 50` and the number 0 is falsy in JavaScript, a stored score
of 0 is re-read as 50, so the next failed request *raises* the score to
40 instead of keeping it at the clamped 0 the claim requires.  Five
failures take a fresh connection to 0; the sixth yields 40. -/
theorem C8_healthScore_zeroResurrected :
    failScores 1 = [("conn-1", 40)] ∧
    failScores 5 = [("conn-1", 0)] ∧
    failScores 6 = [("conn-1", 40)] ∧
    LoadBalancer.updateConnectionHealth [("conn-1", 0)] "conn-1" false 0
      = [("conn-1", 40)] := by
  refine ⟨rfl, rfl, rfl, rfl⟩

/-! ## Claim C9 -/

/-- Claim C9 (code bug): with `maxRequestsPerSecond = 1` the governor loop
dispatches both queued operations inside the same 1000 ms window, because
`canProcessRequest` consults `requestWindow` but nothing records a
dispatch there — `recordRequest` only runs from `recordResponseTime`,
i.e. when a request *completes*.  Two consecutive `dispatchStep`s from
`lbEx0` both pass the rate check (the window is still empty), yielding
2 dispatches in the window `(-1, 999]` against a cap of 1. -/
theorem C9_rateLimit_dispatchUnrecorded :
    LoadBalancer.dispatchStep lbCfgEx lbEx0 = some lbEx1 ∧
    LoadBalancer.dispatchStep lbCfgEx lbEx1 = some lbEx2 ∧
    LoadBalancer.dispatchesWithin lbCfgEx lbEx2.dispatchLog (-1) = 2 ∧
    lbCfgEx.maxRequestsPerSecond = 1 := by
  refine ⟨rfl, rfl, rfl, rfl⟩

/-! ## Claim C5 -/

/-- With the primary connected, `getReadConnection` succeeds, returns the
round-robin pick and advances the cursor. -/
theorem getReadConnection_eq (q : ConnectionManager.Pool)
    (hq : q.primaryConnected = true) :
    ConnectionManager.getReadConnection q =
      .ok ((ConnectionManager.availableConnections q).getD
             (q.roundRobinIndex % (ConnectionManager.availableConnections q).length) 0,
           { q with roundRobinIndex := q.roundRobinIndex + 1 }) := by
  have hne : (ConnectionManager.availableConnections q).isEmpty = false := by
    unfold ConnectionManager.availableConnections
    simp [List.filter_cons, hq]
  unfold ConnectionManager.getReadConnection
  simp [hne]

/-- Counterexample to C5 as stated: when every attempt fails, `executeRead`
makes exactly 3 attempts and sleeps 1 s and then 2 s between them — a 3 s
delay never occurs (there are only two gaps between three attempts), and
the write loop behaves identically. -/
theorem C5_retry_counterexample :
    ConnectionManager.executeRead exPoolC5 (fun _ _ => (Except.error "boom" : Except String ℕ))
      = ([.acquire 0, .delayMs 1000, .acquire 0, .delayMs 2000, .acquire 0],
         Except.error "All read operation attempts failed", ⟨true, [], 3⟩) ∧
    ConnectionManager.RetryEv.delayMs 3000 ∉
      (ConnectionManager.executeRead exPoolC5
        (fun _ _ => (Except.error "boom" : Except String ℕ))).1 ∧
    ConnectionManager.executeWrite exPoolC5 (fun _ => (Except.error "boom" : Except String ℕ))
      = ([.acquire 0, .delayMs 1000, .acquire 0, .delayMs 2000, .acquire 0],
         Except.error "All write operation attempts failed") := by
  refine ⟨rfl, by decide, rfl⟩

/-- Claim C5 (corrected): each `executeRead` / `executeWrite` call attempts
the operation up to 3 times, acquiring a fresh handle on every attempt
(the round-robin cursor advances once per acquisition), sleeps
`1000 * (attempt + 1)` ms after a failed attempt that is not the last —
so the only delays are 1 s and then 2 s, never 3 s — and raises the
connection error after, and only after, all 3 attempts have failed. -/
theorem C5_retry_amended {T : Type} (p : ConnectionManager.Pool)
    (op : ℕ → ℕ → Except String T) (opw : ℕ → Except String T)
    (hp : p.primaryConnected = true) :
    (∀ ms ∈ ConnectionManager.delaysOf (ConnectionManager.executeRead p op).1,
        ms = 1000 ∨ ms = 2000) ∧
    ((ConnectionManager.executeRead p op).2.1.isOk = false →
      ConnectionManager.acquireCount (ConnectionManager.executeRead p op).1 = 3 ∧
      ConnectionManager.delaysOf (ConnectionManager.executeRead p op).1 = [1000, 2000] ∧
      ∀ k < 3, (op k (connAt p k)).isOk = false) ∧
    ((ConnectionManager.executeRead p op).2.2.roundRobinIndex =
      p.roundRobinIndex +
        ConnectionManager.acquireCount (ConnectionManager.executeRead p op).1) ∧
    (∀ ms ∈ ConnectionManager.delaysOf (ConnectionManager.executeWrite p opw).1,
        ms = 1000 ∨ ms = 2000) ∧
    ((ConnectionManager.executeWrite p opw).2.isOk = false →
      ConnectionManager.acquireCount (ConnectionManager.executeWrite p opw).1 = 3 ∧
      ConnectionManager.delaysOf (ConnectionManager.executeWrite p opw).1 = [1000, 2000] ∧
      ∀ k < 3, (opw k).isOk = false) := by
  have h0 : ConnectionManager.getReadConnection p =
      .ok (connAt p 0, { p with roundRobinIndex := p.roundRobinIndex + 1 }) := by
    rw [getReadConnection_eq p hp]
    rfl
  have h1 : ConnectionManager.getReadConnection
        { p with roundRobinIndex := p.roundRobinIndex + 1 } =
      .ok (connAt p 1, { p with roundRobinIndex := p.roundRobinIndex + 1 + 1 }) := by
    rw [getReadConnection_eq { p with roundRobinIndex := p.roundRobinIndex + 1 } hp]
    rfl
  have h2 : ConnectionManager.getReadConnection
        { p with roundRobinIndex := p.roundRobinIndex + 1 + 1 } =
      .ok (connAt p 2, { p with roundRobinIndex := p.roundRobinIndex + 1 + 1 + 1 }) := by
    rw [getReadConnection_eq { p with roundRobinIndex := p.roundRobinIndex + 1 + 1 } hp]
    rfl
  have hw : ConnectionManager.getWriteConnection p = .ok 0 := by
    unfold ConnectionManager.getWriteConnection
    simp [hp]
  have hread : ∀ (res : List ConnectionManager.RetryEv × Except String T ×
      ConnectionManager.Pool), res = ConnectionManager.executeRead p op →
      (∀ ms ∈ ConnectionManager.delaysOf res.1, ms = 1000 ∨ ms = 2000) ∧
      (res.2.1.isOk = false →
        ConnectionManager.acquireCount res.1 = 3 ∧
        ConnectionManager.delaysOf res.1 = [1000, 2000] ∧
        ∀ k < 3, (op k (connAt p k)).isOk = false) ∧
      (res.2.2.roundRobinIndex = p.roundRobinIndex + ConnectionManager.acquireCount res.1) := by
    intro res hres
    unfold ConnectionManager.executeRead ConnectionManager.MAX_CONNECTION_ATTEMPTS at hres
    cases hop0 : op 0 (connAt p 0) with
    | ok v0 =>
      rw [show ConnectionManager.executeReadGo op 3 0 p [] =
          ([.acquire (connAt p 0)], .ok v0,
           { p with roundRobinIndex := p.roundRobinIndex + 1 }) from by
        unfold ConnectionManager.executeReadGo
        rw [h0]
        dsimp only
        rw [hop0]
        simp] at hres
      subst hres
      refine ⟨by simp [ConnectionManager.delaysOf], by simp [Except.isOk, Except.toBool], ?_⟩
      simp [ConnectionManager.acquireCount]
    | error e0 =>
      cases hop1 : op 1 (connAt p 1) with
      | ok v1 =>
        rw [show ConnectionManager.executeReadGo op 3 0 p [] =
            ([.acquire (connAt p 0), .delayMs 1000, .acquire (connAt p 1)], .ok v1,
             { p with roundRobinIndex := p.roundRobinIndex + 1 + 1 }) from by
          unfold ConnectionManager.executeReadGo
          rw [h0]
          dsimp only
          rw [hop0]
          simp
          unfold ConnectionManager.executeReadGo
          rw [h1]
          dsimp only
          rw [hop1]
          simp] at hres
        subst hres
        refine ⟨by simp [ConnectionManager.delaysOf], by simp [Except.isOk, Except.toBool], ?_⟩
        simp [ConnectionManager.acquireCount]
      | error e1 =>
        cases hop2 : op 2 (connAt p 2) with
        | ok v2 =>
          rw [show ConnectionManager.executeReadGo op 3 0 p [] =
              ([.acquire (connAt p 0), .delayMs 1000, .acquire (connAt p 1),
                .delayMs 2000, .acquire (connAt p 2)], .ok v2,
               { p with roundRobinIndex := p.roundRobinIndex + 1 + 1 + 1 }) from by
            unfold ConnectionManager.executeReadGo
            rw [h0]
            dsimp only
            rw [hop0]
            simp
            unfold ConnectionManager.executeReadGo
            rw [h1]
            dsimp only
            rw [hop1]
            simp
            unfold ConnectionManager.executeReadGo
            rw [h2]
            dsimp only
            rw [hop2]
            simp] at hres
          subst hres
          refine ⟨by simp [ConnectionManager.delaysOf],
            by simp [Except.isOk, Except.toBool], ?_⟩
          simp [ConnectionManager.acquireCount]
        | error e2 =>
          rw [show ConnectionManager.executeReadGo op 3 0 p [] =
              ([.acquire (connAt p 0), .delayMs 1000, .acquire (connAt p 1),
                .delayMs 2000, .acquire (connAt p 2)],
               .error "All read operation attempts failed",
               { p with roundRobinIndex := p.roundRobinIndex + 1 + 1 + 1 }) from by
            unfold ConnectionManager.executeReadGo
            rw [h0]
            dsimp only
            rw [hop0]
            simp
            unfold ConnectionManager.executeReadGo
            rw [h1]
            dsimp only
            rw [hop1]
            simp
            unfold ConnectionManager.executeReadGo
            rw [h2]
            dsimp only
            rw [hop2]
            simp] at hres
          subst hres
          refine ⟨by simp [ConnectionManager.delaysOf], ?_, ?_⟩
          · intro _
            refine ⟨rfl, by simp [ConnectionManager.delaysOf], ?_⟩
            intro k hk
            match k, hk with
            | 0, _ => simp [hop0, Except.isOk, Except.toBool]
            | 1, _ => simp [hop1, Except.isOk, Except.toBool]
            | 2, _ => simp [hop2, Except.isOk, Except.toBool]
          · simp [ConnectionManager.acquireCount]
  have hwrite : ∀ (res : List ConnectionManager.RetryEv × Except String T),
      res = ConnectionManager.executeWrite p opw →
      (∀ ms ∈ ConnectionManager.delaysOf res.1, ms = 1000 ∨ ms = 2000) ∧
      (res.2.isOk = false →
        ConnectionManager.acquireCount res.1 = 3 ∧
        ConnectionManager.delaysOf res.1 = [1000, 2000] ∧
        ∀ k < 3, (opw k).isOk = false) := by
    intro res hres
    unfold ConnectionManager.executeWrite ConnectionManager.MAX_CONNECTION_ATTEMPTS at hres
    cases hop0 : opw 0 with
    | ok v0 =>
      rw [show ConnectionManager.executeWriteGo p opw 3 0 [] =
          ([.acquire 0], .ok v0) from by
        unfold ConnectionManager.executeWriteGo
        rw [hw]
        dsimp only
        rw [hop0]
        simp] at hres
      subst hres
      exact ⟨by simp [ConnectionManager.delaysOf], by simp [Except.isOk, Except.toBool]⟩
    | error e0 =>
      cases hop1 : opw 1 with
      | ok v1 =>
        rw [show ConnectionManager.executeWriteGo p opw 3 0 [] =
            ([.acquire 0, .delayMs 1000, .acquire 0], .ok v1) from by
          unfold ConnectionManager.executeWriteGo
          rw [hw]
          dsimp only
          rw [hop0]
          simp
          unfold ConnectionManager.executeWriteGo
          rw [hw]
          dsimp only
          rw [hop1]
          simp] at hres
        subst hres
        exact ⟨by simp [ConnectionManager.delaysOf], by simp [Except.isOk, Except.toBool]⟩
      | error e1 =>
        cases hop2 : opw 2 with
        | ok v2 =>
          rw [show ConnectionManager.executeWriteGo p opw 3 0 [] =
              ([.acquire 0, .delayMs 1000, .acquire 0, .delayMs 2000, .acquire 0],
               .ok v2) from by
            unfold ConnectionManager.executeWriteGo
            rw [hw]
            dsimp only
            rw [hop0]
            simp
            unfold ConnectionManager.executeWriteGo
            rw [hw]
            dsimp only
            rw [hop1]
            simp
            unfold ConnectionManager.executeWriteGo
            rw [hw]
            dsimp only
            rw [hop2]
            simp] at hres
          subst hres
          exact ⟨by simp [ConnectionManager.delaysOf], by simp [Except.isOk, Except.toBool]⟩
        | error e2 =>
          rw [show ConnectionManager.executeWriteGo p opw 3 0 [] =
              ([.acquire 0, .delayMs 1000, .acquire 0, .delayMs 2000, .acquire 0],
               .error "All write operation attempts failed") from by
            unfold ConnectionManager.executeWriteGo
            rw [hw]
            dsimp only
            rw [hop0]
            simp
            unfold ConnectionManager.executeWriteGo
            rw [hw]
            dsimp only
            rw [hop1]
            simp
            unfold ConnectionManager.executeWriteGo
            rw [hw]
            dsimp only
            rw [hop2]
            simp] at hres
          subst hres
          refine ⟨by simp [ConnectionManager.delaysOf], ?_⟩
          intro _
          refine ⟨rfl, by simp [ConnectionManager.delaysOf], ?_⟩
          intro k hk
          match k, hk with
          | 0, _ => simp [hop0, Except.isOk, Except.toBool]
          | 1, _ => simp [hop1, Except.isOk, Except.toBool]
          | 2, _ => simp [hop2, Except.isOk, Except.toBool]
  obtain ⟨ra, rb, rc⟩ := hread _ rfl
  obtain ⟨wa, wb⟩ := hwrite _ rfl
  exact ⟨ra, rb, rc, wa, wb⟩

/-- Witness for C5: the amended statement at the concrete all-failing run
on the primary-only pool. -/
theorem C5_retry_amended_witness :
    ConnectionManager.acquireCount
        (ConnectionManager.executeRead exPoolC5
          (fun _ _ => (Except.error "boom" : Except String ℕ))).1 = 3 ∧
    ConnectionManager.delaysOf
        (ConnectionManager.executeRead exPoolC5
          (fun _ _ => (Except.error "boom" : Except String ℕ))).1 = [1000, 2000] ∧
    ∀ k < 3, ((fun (_ : ℕ) (_ : ℕ) => (Except.error "boom" : Except String ℕ)) k
        (connAt exPoolC5 k)).isOk = false :=
  (C5_retry_amended exPoolC5 (fun _ _ => (Except.error "boom" : Except String ℕ))
    (fun _ => (Except.error "boom" : Except String ℕ)) rfl).2.1 rfl

/-! ## Claim C6 -/

/-- The delivery fold only appends to its output accumulator. -/
theorem deliverStep_foldl_out (hmac : String → String → String)
    (jsonOf : GeofenceEvent → String) (event : GeofenceEvent) :
    ∀ (ws : List WebhookConfig) (p : WebhookService.WebhookPayload)
      (out : List (String × WebhookService.WebhookPayload)),
      (ws.foldl (WebhookService.deliverStep hmac jsonOf event) (p, out)).2 =
        out ++ (ws.foldl (WebhookService.deliverStep hmac jsonOf event) (p, [])).2 := by
  intro ws
  induction ws with
  | nil => intro p out; simp
  | cons w ws ih =>
    intro p out
    rw [List.foldl_cons, List.foldl_cons]
    rw [show WebhookService.deliverStep hmac jsonOf event (p, out) w =
        ((WebhookService.deliverStep hmac jsonOf event (p, out) w).1,
          out ++ [(w.id, (WebhookService.deliverStep hmac jsonOf event (p, out) w).1)]) from by
      unfold WebhookService.deliverStep
      simp]
    rw [show WebhookService.deliverStep hmac jsonOf event (p, []) w =
        ((WebhookService.deliverStep hmac jsonOf event (p, out) w).1,
          [] ++ [(w.id, (WebhookService.deliverStep hmac jsonOf event (p, out) w).1)]) from by
      unfold WebhookService.deliverStep
      simp]
    rw [ih _ (out ++ _), ih _ ([] ++ _)]
    simp

/-- `lastTruthySecret` over a cons: the last truthy secret of the tail
wins; otherwise the head's (truthy) secret, if any. -/
theorem lastTruthySecret_cons (w : WebhookConfig) (l : List WebhookConfig) :
    WebhookService.lastTruthySecret (w :: l) =
      (WebhookService.lastTruthySecret l).or
        (if jsTruthy w.secret then w.secret else none) := by
  unfold WebhookService.lastTruthySecret
  rw [List.filterMap_cons]
  rcases hfw : (if jsTruthy w.secret then w.secret else none) with _ | s
  · simp
  · dsimp only
    rcases hl : (l.filterMap fun w => if jsTruthy w.secret then w.secret else none)
      with _ | ⟨a, t⟩
    · rw [hl]
      rfl
    · rw [hl, List.getLast?_cons_cons]
      rcases hg : (a :: t).getLast? with _ | x
      · rw [List.getLast?_eq_none_iff] at hg
        exact absurd hg (by simp)
      · simp [Option.or]

/-- The signature of the `i`-th delivered payload, for an arbitrary initial
shared payload `p`: the HMAC under the last truthy secret among the first
`i + 1` webhooks, or `p`'s signature if none of them has one. -/
theorem deliverStep_signature (hmac : String → String → String)
    (jsonOf : GeofenceEvent → String) (event : GeofenceEvent) :
    ∀ (ws : List WebhookConfig) (p : WebhookService.WebhookPayload)
      (dflt : String × WebhookService.WebhookPayload) (i : ℕ), i < ws.length →
      ((ws.foldl (WebhookService.deliverStep hmac jsonOf event) (p, [])).2.getD i dflt).2.signature
        = (match WebhookService.lastTruthySecret (ws.take (i + 1)) with
           | some s => some (hmac s (jsonOf event))
           | none => p.signature) := by
  intro ws
  induction ws with
  | nil => intro p dflt i hi; simp at hi
  | cons w ws ih =>
    intro p dflt i hi
    rw [List.foldl_cons]
    rw [show WebhookService.deliverStep hmac jsonOf event (p, []) w =
        ((WebhookService.deliverStep hmac jsonOf event (p, []) w).1,
          [(w.id, (WebhookService.deliverStep hmac jsonOf event (p, []) w).1)]) from by
      unfold WebhookService.deliverStep
      simp]
    rw [deliverStep_foldl_out]
    rw [List.singleton_append]
    rcases i with _ | j
    · rw [List.getD_cons_zero]
      simp only [List.take_succ_cons, List.take_zero]
      rcases hws : w.secret with _ | s
      · simp [WebhookService.deliverStep, WebhookService.lastTruthySecret, jsTruthy, hws]
      · by_cases hs : s = ""
        · simp [WebhookService.deliverStep, WebhookService.lastTruthySecret, jsTruthy,
            hws, hs]
        · simp [WebhookService.deliverStep, WebhookService.lastTruthySecret,
            WebhookService.generateSignature, jsTruthy, hws, hs]
    · have hj : j < ws.length := by
        simpa using hi
      rw [List.getD_cons_succ]
      rw [ih ((WebhookService.deliverStep hmac jsonOf event (p, []) w).1) dflt j hj]
      simp only [List.take_succ_cons]
      rw [lastTruthySecret_cons]
      rcases hlast : WebhookService.lastTruthySecret (ws.take (j + 1)) with _ | s
      · rcases hws : w.secret with _ | s
        · simp [WebhookService.deliverStep, jsTruthy, hws, Option.or]
        · by_cases hs : s = ""
          · simp [WebhookService.deliverStep, jsTruthy, hws, hs, Option.or]
          · simp [WebhookService.deliverStep, WebhookService.generateSignature,
              jsTruthy, hws, hs, Option.or]
      · simp [Option.or]

/-- The delivery fold hands one payload to each webhook. -/
theorem deliverStep_foldl_length (hmac : String → String → String)
    (jsonOf : GeofenceEvent → String) (event : GeofenceEvent) :
    ∀ (ws : List WebhookConfig) (p : WebhookService.WebhookPayload),
      (ws.foldl (WebhookService.deliverStep hmac jsonOf event) (p, [])).2.length
        = ws.length := by
  intro ws
  induction ws with
  | nil => intro p; rfl
  | cons w ws ih =>
    intro p
    rw [List.foldl_cons]
    rw [show WebhookService.deliverStep hmac jsonOf event (p, []) w =
        ((WebhookService.deliverStep hmac jsonOf event (p, []) w).1,
          [(w.id, (WebhookService.deliverStep hmac jsonOf event (p, []) w).1)]) from by
      unfold WebhookService.deliverStep
      simp]
    rw [deliverStep_foldl_out]
    simp [ih]

/-- When webhook `i` has a truthy secret, it is itself the last truthy
secret among the first `i + 1` webhooks. -/
theorem lastTruthySecret_take_truthy :
    ∀ (ws : List WebhookConfig) (i : ℕ) (dw : WebhookConfig), i < ws.length →
      jsTruthy ((ws.getD i dw).secret) = true →
      WebhookService.lastTruthySecret (ws.take (i + 1)) = (ws.getD i dw).secret := by
  intro ws
  induction ws with
  | nil => intro i dw hi; simp at hi
  | cons w ws ih =>
    intro i dw hi htr
    rcases i with _ | j
    · rw [List.getD_cons_zero] at htr ⊢
      simp only [List.take_succ_cons, List.take_zero]
      rcases hws : w.secret with _ | s
      · rw [hws] at htr
        simp [jsTruthy] at htr
      · have hs : s ≠ "" := by
          rw [hws] at htr
          simpa [jsTruthy] using htr
        simp [WebhookService.lastTruthySecret, jsTruthy, hws, hs]
    · rw [List.getD_cons_succ] at htr ⊢
      have hj : j < ws.length := by simpa using hi
      rw [List.take_succ_cons, lastTruthySecret_cons, ih j dw hj htr]
      rcases hsec : (ws.getD j dw).secret with _ | s
      · rw [hsec] at htr
        simp [jsTruthy] at htr
      · rfl

/-- Counterexample to C6 as stated: delivering one event to the webhook
with secret `s3cr3t` followed by a webhook with NO secret hands the
second webhook a payload whose `signature` is still the first webhook's
HMAC — not an absent signature. -/
theorem C6_signature_counterexample :
    (WebhookService.deliverEventToWebhooks exHmacC6 exJsonC6 exZoneC6 exEventC6 "t6"
        [exWebhookWithSecret, exWebhookPlain]).map (fun q => (q.1, q.2.signature)) =
      [("wh-sec", some "hmac(s3cr3t,evt-6)"), ("wh-plain", some "hmac(s3cr3t,evt-6)")] ∧
    exWebhookPlain.secret = none := by
  exact ⟨rfl, rfl⟩

/-- Claim C6 (corrected): every delivered payload's `signature` is the
hex HMAC-SHA256, keyed by the *last truthy secret seen so far* in the
event's webhook list, of the JSON serialization of the event field alone
— so a webhook with a secret always receives the HMAC under its own
secret, but because the payload object is shared and mutated across the
webhooks of one event, a webhook without a secret receives the previous
webhook's signature instead of none; the signature is absent only while
no earlier webhook in the list had a secret. -/
theorem C6_signature_amended (hmac : String → String → String)
    (jsonOf : GeofenceEvent → String) (zone : Zone) (event : GeofenceEvent)
    (nowIso : String) (ws : List WebhookConfig)
    (dflt : String × WebhookService.WebhookPayload) (dw : WebhookConfig) :
    (WebhookService.deliverEventToWebhooks hmac jsonOf zone event nowIso ws).length
        = ws.length ∧
    (∀ i < ws.length,
      ((WebhookService.deliverEventToWebhooks hmac jsonOf zone event nowIso ws).getD
          i dflt).2.signature
        = (WebhookService.lastTruthySecret (ws.take (i + 1))).map
            (fun s => hmac s (jsonOf event))) ∧
    (∀ i < ws.length, jsTruthy ((ws.getD i dw).secret) = true →
      ((WebhookService.deliverEventToWebhooks hmac jsonOf zone event nowIso ws).getD
          i dflt).2.signature
        = ((ws.getD i dw).secret).map (fun s => hmac s (jsonOf event))) := by
  have hchar : ∀ i < ws.length,
      ((WebhookService.deliverEventToWebhooks hmac jsonOf zone event nowIso ws).getD
          i dflt).2.signature
        = (WebhookService.lastTruthySecret (ws.take (i + 1))).map
            (fun s => hmac s (jsonOf event)) := by
    intro i hi
    unfold WebhookService.deliverEventToWebhooks
    rw [deliverStep_signature hmac jsonOf event ws _ dflt i hi]
    rcases WebhookService.lastTruthySecret (ws.take (i + 1)) with _ | s
    · rfl
    · rfl
  refine ⟨?_, hchar, ?_⟩
  · unfold WebhookService.deliverEventToWebhooks
    rw [deliverStep_foldl_length]
  · intro i hi htr
    rw [hchar i hi, lastTruthySecret_take_truthy ws i dw hi htr]

/-- Witness for C6: the amended statement at the two-webhook scenario,
showing the secret webhook's own payload is correctly signed. -/
theorem C6_signature_amended_witness :
    ((WebhookService.deliverEventToWebhooks exHmacC6 exJsonC6 exZoneC6 exEventC6 "t6"
        [exWebhookWithSecret, exWebhookPlain]).getD 0 exPayloadDefault).2.signature
      = (([exWebhookWithSecret, exWebhookPlain].getD 0 exWebhookPlain).secret).map
          (fun s => exHmacC6 s (exJsonC6 exEventC6)) :=
  (C6_signature_amended exHmacC6 exJsonC6 exZoneC6 exEventC6 "t6"
    [exWebhookWithSecret, exWebhookPlain] exPayloadDefault exWebhookPlain).2.2 0
    (by decide) (by decide)

/-! ## Claim C1 -/

/-- A closed triangle ring is never flagged by `isSelfIntersecting`: with 4
coordinates the only non-adjacent edge pair is (first, last), which the
source's skip condition excludes. -/
theorem triangle_not_selfIntersecting (a b c : Coordinate) :
    GeospatialValidator.isSelfIntersecting [a, b, c, a] = false := rfl

/-- `validateZonePolygon` returns the input ring unchanged or auto-closed
by one copy of the first vertex. -/
theorem validateZonePolygon_ok_shape (o : GeospatialValidator.GeoOracle)
    (cs cl : List Coordinate)
    (h : GeospatialValidator.validateZonePolygon o cs = .ok cl) :
    cl = cs ∨ cl = cs ++ [cs.headD cZero] := by
  unfold GeospatialValidator.validateZonePolygon at h
  by_cases hclose : o.closeEnough (cs.headD cZero) (cs.getLastD cZero) = true
  · left
    simp only [hclose, if_true] at h
    split_ifs at h
    injection h with h
    exact h.symm
  · right
    rw [Bool.not_eq_true] at hclose
    simp only [hclose, Bool.false_eq_true, if_false] at h
    split_ifs at h
    injection h with h
    exact h.symm

/-- Rings of 6 or more vertices always fail the creation pipeline: even
when all geometric checks pass, the closed ring has at least 6
coordinates and `validateFourCoordinatePolygon` rejects it. -/
theorem createZonePipeline_six_plus (o : GeospatialValidator.GeoOracle)
    (active : List (List Coordinate)) (cs : List Coordinate)
    (h6 : 6 ≤ cs.length) :
    (ZoneManagement.createZoneCoordinatePipeline o active cs).isOk = false := by
  rcases cs with _ | ⟨c0, cs'⟩
  · simp at h6
  · unfold ZoneManagement.createZoneCoordinatePipeline
    rcases hv : GeospatialValidator.validateZonePolygon o (c0 :: cs') with e | cl
    · simp [GeospatialValidator.calculateBoundingBox, Bind.bind, Except.bind, hv,
        Except.isOk, Except.toBool]
    · have hshape := validateZonePolygon_ok_shape o (c0 :: cs') cl hv
      have hlen : 6 ≤ cl.length := by
        rcases hshape with hs | hs <;> subst hs
        · exact h6
        · rw [List.length_append, List.length_singleton]
          omega
      have h4 : GeospatialValidator.validateFourCoordinatePolygon cl =
          .error "Zone must have exactly 4 coordinates (plus optional closing coordinate)" := by
        unfold GeospatialValidator.validateFourCoordinatePolygon
        rw [if_pos (by omega)]
      simp [GeospatialValidator.calculateBoundingBox, Bind.bind, Except.bind, hv, h4,
        Except.isOk, Except.toBool]

section

attribute [local semireducible] Rat.add Rat.sub Rat.mul Rat.inv

set_option maxRecDepth 1000000

/-- Counterexample to C1 as stated: `ring100` has exactly 100 valid
vertices and satisfies the other polygon invariants — the float
primitives report it open, non-self-intersecting, with area
≈ 1.19 × 10⁶ m² inside [100, 10⁹] m² (the verdicts recorded in
`oracleRing100`), and there is no active zone to overlap — yet
`createZone`'s validation pipeline rejects it: after
`validateZonePolygon` passes and auto-closes the ring to 101
coordinates, `validateFourCoordinatePolygon` demands exactly 4. -/
theorem C1_vertexCount_counterexample :
    ring100.length = 100 ∧
    ring100.all GeospatialValidator.validCoordinate = true ∧
    ZoneManagement.createZoneCoordinatePipeline oracleRing100 [] ring100 =
      .error "Zone must have exactly 4 coordinates (plus optional closing coordinate)" := by
  refine ⟨by decide, by decide, by decide⟩

/-- Claim C1 (corrected): with the other polygon invariants satisfied, zone
creation accepts a ring of exactly 3 valid vertices (auto-closed to 4
coordinates) and rejects rings of 2 or fewer — but it does NOT accept a
ring of 100 vertices: `createZone` also runs
`validateFourCoordinatePolygon`, so every ring of 6 or more vertices
(in particular 100, and 101) is rejected. -/
theorem C1_vertexCount_amended :
    (∀ (o : GeospatialValidator.GeoOracle) (active : List (List Coordinate))
        (cs : List Coordinate), cs.length ≤ 2 →
      (ZoneManagement.createZoneCoordinatePipeline o active cs).isOk = false) ∧
    (∀ (o : GeospatialValidator.GeoOracle) (active : List (List Coordinate))
        (a b c : Coordinate),
      [a, b, c].all GeospatialValidator.validCoordinate = true →
      o.closeEnough a c = false →
      o.selfIntersecting [a, b, c, a] = false →
      100 ≤ o.area [a, b, c, a] →
      o.area [a, b, c, a] ≤ 1000000000 →
      (∀ az ∈ active, GeospatialValidator.polygonsOverlap [a, b, c, a] az = false) →
      ZoneManagement.createZoneCoordinatePipeline o active [a, b, c] =
        .ok [a, b, c, a]) ∧
    (∀ (o : GeospatialValidator.GeoOracle) (active : List (List Coordinate))
        (cs : List Coordinate), 6 ≤ cs.length →
      (ZoneManagement.createZoneCoordinatePipeline o active cs).isOk = false) := by
  refine ⟨?_, ?_, createZonePipeline_six_plus⟩
  · intro o active cs h
    rcases cs with _ | ⟨a, _ | ⟨b, _ | ⟨c, t⟩⟩⟩
    · rfl
    · rfl
    · rfl
    · simp [List.length_cons] at h
  · intro o active a b c hall hclose hsi harealo hareahi hover
    have hhead : ([a, b, c] : List Coordinate).headD cZero = a := rfl
    have hlast : ([a, b, c] : List Coordinate).getLastD cZero = c := rfl
    have hnl : ¬ (o.area [a, b, c, a] < 100) := not_lt.mpr harealo
    have hnh : ¬ (o.area [a, b, c, a] > 1000000000) := not_lt.mpr hareahi
    have hvp : GeospatialValidator.validateZonePolygon o [a, b, c] = .ok [a, b, c, a] := by
      unfold GeospatialValidator.validateZonePolygon
      simp [hhead, hlast, hall, hclose, hsi, hnl, hnh]
    have hov : ZoneManagement.checkZoneOverlaps [a, b, c, a] active = .ok true := by
      unfold ZoneManagement.checkZoneOverlaps
      rw [show (active.find? fun az =>
          GeospatialValidator.polygonsOverlap [a, b, c, a] az) = none from
        List.find?_eq_none.mpr (fun az haz => by simp [hover az haz])]
    unfold ZoneManagement.createZoneCoordinatePipeline
    simp [GeospatialValidator.calculateBoundingBox, Bind.bind, Except.bind, hvp, hov,
      GeospatialValidator.validateFourCoordinatePolygon]

/-- Witness for C1: the amended statement at the concrete small triangle
(10, 10), (10, 10.1), (10.1, 10) — accepted and auto-closed, with
`oracleTriC1` recording the float primitives' verdicts on it — and a
concrete 2-vertex ring (rejected). -/
theorem C1_vertexCount_amended_witness :
    ZoneManagement.createZoneCoordinatePipeline oracleTriC1 []
        [⟨10, 10⟩, ⟨10, 101/10⟩, ⟨101/10, 10⟩] =
      .ok [⟨10, 10⟩, ⟨10, 101/10⟩, ⟨101/10, 10⟩, ⟨10, 10⟩] ∧
    (ZoneManagement.createZoneCoordinatePipeline oracleTriC1 [] [⟨1, 1⟩, ⟨1, 2⟩]).isOk
      = false :=
  ⟨C1_vertexCount_amended.2.1 oracleTriC1 [] ⟨10, 10⟩ ⟨10, 101/10⟩ ⟨101/10, 10⟩
      (by decide) rfl rfl
      (by decide) (by decide) (by intro az haz; exact absurd haz (List.not_mem_nil az)),
   C1_vertexCount_amended.1 oracleTriC1 [] [⟨1, 1⟩, ⟨1, 2⟩] (by decide)⟩

end

end GeoFence
